import Mathlib

/-!
Shallow embedding of the query-comparison demo client.

Sections:
* Query Submission surface (`src/components/chat-interface.tsx`):
  `handleSubmit` and `navigateHistory` over an explicit `ChatState`.
* Dual Retrieval Dispatcher (`src/components/response-comparison.tsx`):
  `handleQuery`, the per-side completion handlers of `fetchVectorResponse`
  and `fetchKGResponse`, and a labelled step relation over a system state
  that also tracks the outstanding fetches of every submitted query.
* Presentation helpers (`formatTime`, the latency badge guard).
* The vector-only proxy route (`src/app/api/query-vector-only/route.ts`).
-/

/-- Model of the TypeScript QueryHistoryItem: id, text, timestamp.
`Date.now()` and `new Date()` are modelled by a `now : Nat` clock value
passed to `handleSubmit`. -/
structure QueryHistoryItem where
  id : String
  text : String
  timestamp : Nat
deriving DecidableEq

/-- State of the ChatInterface component: the `query` input field, the
`queryHistory` list (most recent first) and the `historyIndex` cursor
(-1 means no history entry selected). -/
structure ChatState where
  query : String
  queryHistory : List QueryHistoryItem
  historyIndex : Int
deriving DecidableEq

/-- Model of JavaScript String.prototype.trim: drop whitespace characters
from both ends. Structurally recursive so concrete instances evaluate. -/
def trimString (s : String) : String :=
  ⟨((s.data.dropWhile Char.isWhitespace).reverse.dropWhile Char.isWhitespace).reverse⟩

/-- Model of ChatInterface.handleSubmit. Returns the new component state and
the list of emitted newQuery signals (the payload string of each
dispatched CustomEvent). If the trimmed input is empty the handler
returns early: no state change and no event. Otherwise it prepends a
history item built from the trimmed text, keeps only the first 19 old
entries (slice(0, 19)), resets the cursor, emits one event carrying the
trimmed text, then clears the input. -/
def handleSubmit (now : Nat) (s : ChatState) : ChatState × List String :=
  if trimString s.query = "" then (s, [])
  else
    let item : QueryHistoryItem := ⟨toString now, trimString s.query, now⟩
    ({ query := "", queryHistory := item :: s.queryHistory.take 19, historyIndex := -1 },
     [trimString s.query])

/-- Direction argument of ChatInterface.navigateHistory: up is older,
down is newer. -/
inductive Direction
  | up
  | down
deriving DecidableEq

/-- Model of ChatInterface.navigateHistory. An out-of-bounds read of
`queryHistory[newIndex]` (which in the source would produce undefined and
then throw on `.text`) is modelled as `none`; every in-source read is
guarded, so the theorems below show the result is always `some`. -/
def navigateHistory (dir : Direction) (s : ChatState) : Option ChatState :=
  if s.queryHistory.length = 0 then some s
  else
    match dir with
    | .up =>
      let newIndex : Int :=
        if s.historyIndex < (s.queryHistory.length : Int) - 1 then s.historyIndex + 1
        else s.historyIndex
      if 0 ≤ newIndex ∧ newIndex < (s.queryHistory.length : Int) then
        match s.queryHistory[newIndex.toNat]? with
        | some item => some { s with historyIndex := newIndex, query := item.text }
        | none => none
      else
        some { s with historyIndex := newIndex }
    | .down =>
      let newIndex : Int := if s.historyIndex > 0 then s.historyIndex - 1 else -1
      if 0 ≤ newIndex then
        match s.queryHistory[newIndex.toNat]? with
        | some item => some { s with historyIndex := newIndex, query := item.text }
        | none => none
      else
        some { s with historyIndex := newIndex, query := "" }

/-- Folds a sequence of history-navigation steps, failing if any step
performs an out-of-bounds read. -/
def navSteps (ds : List Direction) (s : ChatState) : Option ChatState :=
  ds.foldl (fun acc d => acc.bind (navigateHistory d)) (some s)

/-- Cursor invariant of the chat surface: the history cursor stays in
the range -1 .. length - 1. -/
def chatInv (s : ChatState) : Prop :=
  -1 ≤ s.historyIndex ∧ s.historyIndex < (s.queryHistory.length : Int)

instance (s : ChatState) : Decidable (chatInv s) := by
  unfold chatInv; infer_instance

/-- Lifts `chatInv` to the optional result of a navigation run: the run
must have performed only in-bounds reads and the invariant must hold after. -/
def chatInvO : Option ChatState → Prop
  | some s => chatInv s
  | none => False

instance (o : Option ChatState) : Decidable (chatInvO o) := by
  cases o <;> (unfold chatInvO; infer_instance)

theorem navigateHistory_some_inv (d : Direction) (s : ChatState) (h : chatInv s) :
    chatInvO (navigateHistory d s) := by
  obtain ⟨h1, h2⟩ := h
  unfold navigateHistory
  by_cases hlen : s.queryHistory.length = 0
  · simp [hlen, chatInvO, chatInv]
    omega
  · cases d
    · simp only [hlen, if_false]
      by_cases hguard : 0 ≤ (if s.historyIndex < (s.queryHistory.length : Int) - 1 then
            s.historyIndex + 1 else s.historyIndex) ∧
          (if s.historyIndex < (s.queryHistory.length : Int) - 1 then
            s.historyIndex + 1 else s.historyIndex) < (s.queryHistory.length : Int)
      · obtain ⟨hg1, hg2⟩ := hguard
        have hb : (if s.historyIndex < (s.queryHistory.length : Int) - 1 then
            s.historyIndex + 1 else s.historyIndex).toNat < s.queryHistory.length := by
          omega
        rw [if_pos ⟨hg1, hg2⟩, List.getElem?_eq_getElem hb]
        simp [chatInvO, chatInv]
        omega
      · rw [if_neg hguard]
        simp [chatInvO, chatInv]
        constructor <;> (split <;> omega)
    · simp only [hlen, if_false]
      by_cases hguard : 0 ≤ (if s.historyIndex > 0 then s.historyIndex - 1 else -1)
      · have hb : (if s.historyIndex > 0 then s.historyIndex - 1 else -1).toNat <
            s.queryHistory.length := by
          split <;> omega
        rw [if_pos hguard, List.getElem?_eq_getElem hb]
        simp [chatInvO, chatInv]
        constructor <;> (split <;> omega)
      · rw [if_neg hguard]
        simp [chatInvO, chatInv]
        constructor <;> (split <;> omega)

theorem navSteps_some_inv (ds : List Direction) (s : ChatState) (h : chatInv s) :
    chatInvO (navSteps ds s) := by
  induction ds generalizing s with
  | nil => simpa [navSteps, chatInvO] using h
  | cons d ds ih =>
    have hd := navigateHistory_some_inv d s h
    unfold navSteps
    cases hnav : navigateHistory d s with
    | none => rw [hnav] at hd; exact absurd hd (by simp [chatInvO])
    | some s' =>
      rw [hnav] at hd
      simpa [navSteps, List.foldl, hnav] using ih s' hd

/-- Model of a single vector search result (type VectorResult). -/
structure VectorResult where
  score : String
  text : String
deriving DecidableEq

/-- Model of the response of the vector-only endpoint
(type VectorOnlyResponse). -/
structure VectorOnlyResponse where
  query : String
  summary : String
  vector_results : List VectorResult
deriving DecidableEq

/-- Model of the response of the knowledge-graph endpoint (type KGResponse).
Each CypherResult row is an opaque string-keyed record, modelled as an
association list of string pairs. -/
structure KGResponse where
  query : String
  summary : String
  cypher_query : String
  cypher_results_count : Nat
  cypher_results : List (List (String × String))
  vector_results : List VectorResult
deriving DecidableEq

/-- Session-level state of the ResponseComparison component: the eight
useState variables that carry comparison data (the tab-selection and
viewport state is pure presentation and not modelled). -/
structure SessionState where
  query : String
  isLoading : Bool
  vectorResponse : Option VectorOnlyResponse
  kgResponse : Option KGResponse
  vectorError : Option String
  kgError : Option String
  vectorTime : Option Nat
  kgTime : Option Nat
deriving DecidableEq

/-- Initial component state given by the useState initialisers. -/
def initSession : SessionState :=
  { query := ""
    isLoading := false
    vectorResponse := none
    kgResponse := none
    vectorError := none
    kgError := none
    vectorTime := none
    kgTime := none }

/-- Model of the handleQuery event handler: on a newQuery event it sets the
query, raises the loading flag and clears both payloads and both errors.
It does not touch vectorTime or kgTime. -/
def handleQuery (q : String) (s : SessionState) : SessionState :=
  { s with
    query := q
    isLoading := true
    vectorResponse := none
    kgResponse := none
    vectorError := none
    kgError := none }

/-- Resolution of one outstanding fetch: either a parsed 2xx payload
together with the measured elapsed milliseconds, or the caught error
message (API error for non-2xx status, or a transport or parse failure). -/
inductive FetchResult (α : Type)
  | ok (data : α) (elapsed : Nat)
  | err (msg : String)
deriving DecidableEq

/-- Effect of fetchVectorResponse completing: on success it stores the
payload and elapsed time; on any caught error it stores the message.
There is no finally clause, so isLoading is untouched. -/
def applyVectorResult (r : FetchResult VectorOnlyResponse) (s : SessionState) : SessionState :=
  match r with
  | .ok data elapsed => { s with vectorResponse := some data, vectorTime := some elapsed }
  | .err msg => { s with vectorError := some msg }

/-- Effect of fetchKGResponse completing: on success it stores the payload
and elapsed time; on any caught error it stores the message; in both
cases the finally clause clears isLoading. -/
def applyKGResult (r : FetchResult KGResponse) (s : SessionState) : SessionState :=
  match r with
  | .ok data elapsed =>
    { s with kgResponse := some data, kgTime := some elapsed, isLoading := false }
  | .err msg => { s with kgError := some msg, isLoading := false }

/-- Whole-system state of the dispatcher: the component state plus the
queries of the still-outstanding vector and KG fetches, in dispatch order.
handleQuery starts one fetch of each kind per submission and nothing
cancels them, so outstanding fetches of superseded queries stay listed
until they resolve. -/
structure SysState where
  session : SessionState
  pendingVector : List String
  pendingKG : List String
deriving DecidableEq

/-- Initial system state: the initial component state and no outstanding
fetches. -/
def dispatcherInit : SysState :=
  { session := initSession, pendingVector := [], pendingKG := [] }

/-- Observable events of the dispatcher: a newQuery submission, or the
resolution of the i-th outstanding vector or KG fetch (the index selects
which outstanding call returns; the code applies the same update whichever
call it is, since the completion handlers never compare the fetched query
with the current one). -/
inductive DispatchEvent
  | submit (q : String)
  | vectorDone (i : Nat) (r : FetchResult VectorOnlyResponse)
  | kgDone (i : Nat) (r : FetchResult KGResponse)
deriving DecidableEq

/-- One step of the dispatcher. A resolution event is only enabled while
the selected fetch is outstanding; it removes that fetch from the pending
list and applies the corresponding completion handler unconditionally. -/
def dispatchStep (e : DispatchEvent) (s : SysState) : Option SysState :=
  match e with
  | .submit q =>
    some { session := handleQuery q s.session
           pendingVector := s.pendingVector ++ [q]
           pendingKG := s.pendingKG ++ [q] }
  | .vectorDone i r =>
    if i < s.pendingVector.length then
      some { session := applyVectorResult r s.session
             pendingVector := s.pendingVector.eraseIdx i
             pendingKG := s.pendingKG }
    else none
  | .kgDone i r =>
    if i < s.pendingKG.length then
      some { session := applyKGResult r s.session
             pendingVector := s.pendingVector
             pendingKG := s.pendingKG.eraseIdx i }
    else none

/-- Runs a sequence of dispatcher events from a system state. -/
def dispatchRun (es : List DispatchEvent) (s : SysState) : Option SysState :=
  es.foldl (fun acc e => acc.bind (dispatchStep e)) (some s)

/-- Per-side outcome in the sense of the spec's RetrievalOutcome, read off
the component state the way the render code classifies it: an error is
shown before a payload, a payload before the pending skeleton. -/
inductive VOutcome
  | pending
  | success (payload : VectorOnlyResponse) (elapsed : Option Nat)
  | failure (msg : String)
deriving DecidableEq

/-- Vector-side outcome of a session state. -/
def vectorOutcome (s : SessionState) : VOutcome :=
  match s.vectorError, s.vectorResponse with
  | some msg, _ => .failure msg
  | none, some p => .success p s.vectorTime
  | none, none => .pending

/-- KG-side outcome classification of a session state. -/
inductive KOutcome
  | pending
  | success (payload : KGResponse) (elapsed : Option Nat)
  | failure (msg : String)
deriving DecidableEq

/-- Graph-side outcome of a session state. -/
def kgOutcome (s : SessionState) : KOutcome :=
  match s.kgError, s.kgResponse with
  | some msg, _ => .failure msg
  | none, some p => .success p s.kgTime
  | none, none => .pending

/-- True once the vector side has left Pending: a payload or an error is
recorded. -/
def vectorSettled (s : SessionState) : Bool :=
  s.vectorResponse.isSome || s.vectorError.isSome

/-- True once the graph side has left Pending. -/
def kgSettled (s : SessionState) : Bool :=
  s.kgResponse.isSome || s.kgError.isSome

/-- Model of formatTime: a JavaScript-truthy ms value renders with an ms
suffix, while null and 0 both render as N/A. -/
def formatTime (ms : Option Nat) : String :=
  match ms with
  | some m => if m ≠ 0 then toString m ++ "ms" else "N/A"
  | none => "N/A"

/-- The latency badge of a panel header: rendered (with the formatted
time) exactly when the stored time is truthy, i.e. present and nonzero. -/
def latencyBadge (ms : Option Nat) : Option String :=
  match ms with
  | some m => if m ≠ 0 then some (formatTime (some m)) else none
  | none => none

/-- Outcome of the route's backend fetch, as observed by the route handler:
a 2xx response whose body text parses to a JSON object (`success some`), a
2xx response whose body is not parsable JSON (`success none`), a non-2xx
status (response.ok false), or a thrown transport error. -/
inductive BackendResult
  | success (parsed : Option (List (String × String)))
  | status (code : Nat)
  | netError (msg : String)

/-- Body of a route reply: relayed JSON data, a JSON object with one
error field, or a JSON object with error and details fields. -/
inductive RouteBody
  | json (data : List (String × String))
  | errorMsg (error : String)
  | errorWithDetails (error : String) (details : String)
deriving DecidableEq

/-- HTTP reply of the route: status code and JSON body. -/
structure RouteReply where
  status : Nat
  body : RouteBody
deriving DecidableEq

/-- Model of the GET handler of `src/app/api/query-vector-only/route.ts`.
The query search parameter is `none` when absent; the backend is a
function from the query to its observed result. Returns the reply and
whether the backend fetch was performed. A falsy query parameter (absent
or empty string) yields a 400 reply without calling the backend. -/
def GET (queryParam : Option String) (backend : String → BackendResult) :
    RouteReply × Bool :=
  match queryParam with
  | none => (⟨400, .errorMsg "Query parameter is required"⟩, false)
  | some q =>
    if q = "" then (⟨400, .errorMsg "Query parameter is required"⟩, false)
    else
      match backend q with
      | .success (some data) => (⟨200, .json data⟩, true)
      | .success none =>
        (⟨500, .errorMsg "Failed to parse JSON response from backend"⟩, true)
      | .status code =>
        (⟨500, .errorWithDetails "Failed to fetch from vector-only endpoint"
            ("Backend API responded with status: " ++ toString code)⟩, true)
      | .netError msg =>
        (⟨500, .errorWithDetails "Failed to fetch from vector-only endpoint" msg⟩, true)

/-- C5: submitting input whose trimmed text is empty is a no-op: the
handler returns before touching any state, so the history is unchanged,
no newQuery signal is emitted, and the input field keeps its text. -/
theorem c5_empty_submit_noop (now : Nat) (s : ChatState) (h : trimString s.query = "") :
    handleSubmit now s = (s, []) := by
  simp [handleSubmit, h]

/-- Witness for C5 at a whitespace-only input field. -/
theorem c5_empty_submit_noop_witness :
    handleSubmit 7 ⟨"   ", [], -1⟩ = (⟨"   ", [], -1⟩, []) :=
  c5_empty_submit_noop 7 ⟨"   ", [], -1⟩ (by decide)

/-- C6: submitting non-empty (after trimming) text places a history item
whose text is the trimmed input at the front of the history, the emitted
signal carries exactly the trimmed input, the rest of the history is the
previous history truncated to its first 19 entries (oldest evicted), and
the resulting history never exceeds 20 entries. -/
theorem c6_submit_shape (now : Nat) (s : ChatState) (h : trimString s.query ≠ "") :
    (handleSubmit now s).1.queryHistory.head? =
        some ⟨toString now, trimString s.query, now⟩ ∧
      (handleSubmit now s).2 = [trimString s.query] ∧
      (handleSubmit now s).1.queryHistory.tail = s.queryHistory.take 19 ∧
      (handleSubmit now s).1.queryHistory.length ≤ 20 := by
  refine ⟨?_, ?_, ?_, ?_⟩ <;> simp [handleSubmit, h]

/-- Witness for C6 at the input field text and a one-item history. -/
theorem c6_submit_shape_witness :
    (handleSubmit 3 ⟨" hi ", [⟨"0", "old", 0⟩], 0⟩).1.queryHistory.head? =
        some ⟨toString 3, trimString " hi ", 3⟩ ∧
      (handleSubmit 3 ⟨" hi ", [⟨"0", "old", 0⟩], 0⟩).2 = [trimString " hi "] ∧
      (handleSubmit 3 ⟨" hi ", [⟨"0", "old", 0⟩], 0⟩).1.queryHistory.tail =
        [⟨"0", "old", 0⟩].take 19 ∧
      (handleSubmit 3 ⟨" hi ", [⟨"0", "old", 0⟩], 0⟩).1.queryHistory.length ≤ 20 :=
  c6_submit_shape 3 ⟨" hi ", [⟨"0", "old", 0⟩], 0⟩ (by decide)

/-- C9: a GET request to the vector-only proxy route whose query search
parameter is absent or empty returns status 400 with the JSON body
error = "Query parameter is required" and performs no backend call. -/
theorem c9_missing_query_400 (qp : Option String) (backend : String → BackendResult)
    (h : qp = none ∨ qp = some "") :
    GET qp backend = (⟨400, .errorMsg "Query parameter is required"⟩, false) := by
  rcases h with h | h <;> subst h <;> simp [GET]

/-- Witness for C9 at an absent query parameter. -/
theorem c9_missing_query_400_witness :
    GET none (fun _ => BackendResult.netError "unreachable") =
      (⟨400, .errorMsg "Query parameter is required"⟩, false) :=
  c9_missing_query_400 none (fun _ => BackendResult.netError "unreachable") (Or.inl rfl)

/-- Starting chat state of the C7 scenario: empty input field, cursor at
none, history a b c most-recent-first. -/
def c7start : ChatState :=
  ⟨"", [⟨"1", "a", 0⟩, ⟨"2", "b", 0⟩, ⟨"3", "c", 0⟩], -1⟩

/-- C7: from an empty input, cursor none, and history a b c, successive
older steps set the input to a, then b, then c, and a fourth older step
clamps at c; from there successive newer steps set the input to b, then a,
then the empty string, and a further newer step clamps at the empty
field with the cursor at none. -/
theorem c7_navigation_scenario :
    (navSteps [.up] c7start).map ChatState.query = some "a" ∧
      (navSteps [.up, .up] c7start).map ChatState.query = some "b" ∧
      (navSteps [.up, .up, .up] c7start).map ChatState.query = some "c" ∧
      (navSteps [.up, .up, .up, .up] c7start).map ChatState.query = some "c" ∧
      (navSteps [.up, .up, .up, .up, .down] c7start).map ChatState.query = some "b" ∧
      (navSteps [.up, .up, .up, .up, .down, .down] c7start).map ChatState.query =
        some "a" ∧
      (navSteps [.up, .up, .up, .up, .down, .down, .down] c7start).map ChatState.query =
        some "" ∧
      (navSteps [.up, .up, .up, .up, .down, .down, .down, .down] c7start).map
        ChatState.query = some "" ∧
      (navSteps [.up, .up, .up, .up, .down, .down, .down, .down] c7start).map
        ChatState.historyIndex = some (-1) := by
  decide

/-- C10: on any history, a sequence of navigation steps from a state whose
cursor is in the range -1 .. length - 1 never fails (every history read the
code performs is in bounds) and leaves the cursor in that range; and on an
empty history a navigation step returns the state unchanged (both the
cursor and the input field). -/
theorem c10_cursor_invariant (ds : List Direction) (d : Direction) (s : ChatState)
    (h : chatInv s) :
    chatInvO (navSteps ds s) ∧
      (s.queryHistory = [] → navigateHistory d s = some s) := by
  refine ⟨navSteps_some_inv ds s h, fun he => ?_⟩
  simp [navigateHistory, he]

/-- Witness for C10 at a two-entry history with the cursor at none. -/
theorem c10_cursor_invariant_witness :
    chatInvO (navSteps [.up, .up, .up, .down]
        ⟨"", [⟨"1", "a", 0⟩, ⟨"2", "b", 0⟩], -1⟩) ∧
      ((⟨"", [⟨"1", "a", 0⟩, ⟨"2", "b", 0⟩], (-1 : Int)⟩ : ChatState).queryHistory = [] →
        navigateHistory .down ⟨"", [⟨"1", "a", 0⟩, ⟨"2", "b", 0⟩], -1⟩ =
          some ⟨"", [⟨"1", "a", 0⟩, ⟨"2", "b", 0⟩], -1⟩) :=
  c10_cursor_invariant [.up, .up, .up, .down] .down
    ⟨"", [⟨"1", "a", 0⟩, ⟨"2", "b", 0⟩], -1⟩ (by decide)

/-- C1 counterexample: submit q1, then q2 while q1's calls are outstanding;
the late success of q1's vector call then changes the session (it fills
vectorResponse and vectorTime) even though the current query is q2, because
the completion handlers never compare the fetched query with the current
one. -/
theorem c1_counterexample :
    (dispatchRun [.submit "q1", .submit "q2"] dispatcherInit).map
        (fun s => (s.session.query, s.pendingVector, s.session.vectorResponse,
          s.session.vectorTime)) =
      some ("q2", ["q1", "q2"], none, none) ∧
      (dispatchRun [.submit "q1", .submit "q2",
          .vectorDone 0 (.ok ⟨"q1", "s1", []⟩ 50)] dispatcherInit).map
        (fun s => (s.session.query, s.session.vectorResponse, s.session.vectorTime)) =
      some ("q2", some ⟨"q1", "s1", []⟩, some 50) := by
  decide

/-- C1 amended: there is no stale-response guard. A resolution of an
outstanding call whose query differs from the current one is applied to
the session unconditionally, exactly as a current result would be: the
resolved side's payload or error and its recorded latency overwrite the
session state. Stated for both sides via an index whose outstanding
vector and KG fetches carry the superseded query. -/
theorem c1_no_stale_guard (s : SysState) (i : Nat) (q : String)
    (rv : FetchResult VectorOnlyResponse) (rk : FetchResult KGResponse)
    (hqv : s.pendingVector[i]? = some q) (hqk : s.pendingKG[i]? = some q)
    (_hne : q ≠ s.session.query) :
    dispatchStep (.vectorDone i rv) s =
        some { session := applyVectorResult rv s.session
               pendingVector := s.pendingVector.eraseIdx i
               pendingKG := s.pendingKG } ∧
      dispatchStep (.kgDone i rk) s =
        some { session := applyKGResult rk s.session
               pendingVector := s.pendingVector
               pendingKG := s.pendingKG.eraseIdx i } := by
  have hiv : i < s.pendingVector.length := by
    rcases Nat.lt_or_ge i s.pendingVector.length with h | h
    · exact h
    · rw [List.getElem?_eq_none h] at hqv; cases hqv
  have hik : i < s.pendingKG.length := by
    rcases Nat.lt_or_ge i s.pendingKG.length with h | h
    · exact h
    · rw [List.getElem?_eq_none h] at hqk; cases hqk
  exact ⟨by simp [dispatchStep, hiv], by simp [dispatchStep, hik]⟩

/-- Witness for C1 amended: current query q2 with a superseded call of q1
outstanding on each side. -/
theorem c1_no_stale_guard_witness :
    dispatchStep (.vectorDone 0 (.ok ⟨"a", "b", []⟩ 7))
        { session := handleQuery "q2" initSession
          pendingVector := ["q1"]
          pendingKG := ["q1"] } =
        some { session := applyVectorResult (.ok ⟨"a", "b", []⟩ 7)
                 (handleQuery "q2" initSession)
               pendingVector := List.eraseIdx ["q1"] 0
               pendingKG := ["q1"] } ∧
      dispatchStep (.kgDone 0 (.err "API error: 500"))
        { session := handleQuery "q2" initSession
          pendingVector := ["q1"]
          pendingKG := ["q1"] } =
        some { session := applyKGResult (.err "API error: 500")
                 (handleQuery "q2" initSession)
               pendingVector := ["q1"]
               pendingKG := List.eraseIdx ["q1"] 0 } :=
  c1_no_stale_guard
    { session := handleQuery "q2" initSession
      pendingVector := ["q1"]
      pendingKG := ["q1"] }
    0 "q1" (.ok ⟨"a", "b", []⟩ 7) (.err "API error: 500") rfl rfl (by decide)

/-- C2 counterexample: after submitting one query, a graph-side completion
clears the loading flag even though the vector side is still Pending and
its call is still outstanding, because only fetchKGResponse has a finally
clause that sets isLoading to false. -/
theorem c2_counterexample :
    (dispatchRun [.submit "q",
        .kgDone 0 (.ok ⟨"q", "s", "MATCH (n) RETURN n", 0, [], []⟩ 100)]
        dispatcherInit).map
      (fun s => (s.session.isLoading, vectorOutcome s.session, s.pendingVector)) =
      some (false, .pending, ["q"]) := by
  decide

/-- C2 amended: the loading indicator tracks only the graph side. It is
set true by every submission, set false by every graph-side completion
(success or failure, even one belonging to a superseded query), and left
unchanged by vector-side completions; in particular it can be false while
the vector side is still Pending. -/
theorem c2_loading_tracks_graph_side :
    (∀ q s, (handleQuery q s).isLoading = true) ∧
      (∀ r s, (applyKGResult r s).isLoading = false) ∧
      (∀ r s, (applyVectorResult r s).isLoading = s.isLoading) := by
  refine ⟨fun q s => rfl, fun r s => ?_, fun r s => ?_⟩ <;> cases r <;> rfl

/-- C3 counterexample: submit q1, let its vector call succeed in 42 ms,
then submit q2. The new session has query q2 and both sides Pending, but
the previous query's elapsed-time value 42 is still present, because
handleQuery clears the payloads and errors but not vectorTime or kgTime. -/
theorem c3_counterexample :
    (dispatchRun [.submit "q1", .vectorDone 0 (.ok ⟨"q1", "s1", []⟩ 42), .submit "q2"]
        dispatcherInit).map
      (fun s => (s.session.query, vectorOutcome s.session, kgOutcome s.session,
        s.session.vectorTime)) =
      some ("q2", .pending, .pending, some 42) := by
  decide

/-- C3 amended: handling the query-submitted signal is one transition that
sets the current query, raises the loading flag and resets both sides'
payloads and errors to Pending, but it retains the previous query's
recorded elapsed-time values. -/
theorem c3_submit_resets_except_times (q : String) (s : SessionState) :
    handleQuery q s =
        { query := q
          isLoading := true
          vectorResponse := none
          kgResponse := none
          vectorError := none
          kgError := none
          vectorTime := s.vectorTime
          kgTime := s.kgTime } ∧
      vectorOutcome (handleQuery q s) = .pending ∧
      kgOutcome (handleQuery q s) = .pending :=
  ⟨rfl, rfl, rfl⟩

/-- C4 counterexample: with q1's calls still outstanding, submit q2 and let
q2's vector call succeed; the vector side is Success for the current query.
The later arrival of q1's vector result then changes the side's outcome
again, with no new query submitted in between. -/
theorem c4_counterexample :
    (dispatchRun [.submit "q1", .submit "q2", .vectorDone 1 (.ok ⟨"q2", "s2", []⟩ 30)]
        dispatcherInit).map
        (fun s => (s.session.query, vectorOutcome s.session)) =
      some ("q2", .success ⟨"q2", "s2", []⟩ (some 30)) ∧
      (dispatchRun [.submit "q1", .submit "q2", .vectorDone 1 (.ok ⟨"q2", "s2", []⟩ 30),
          .vectorDone 0 (.ok ⟨"q1", "s1", []⟩ 99)] dispatcherInit).map
        (fun s => (s.session.query, vectorOutcome s.session)) =
      some ("q2", .success ⟨"q1", "s1", []⟩ (some 99)) := by
  decide

/-- C4 amended: a side's outcome never reverts to Pending without a new
submission, and each resolution of one of its calls leaves the side
settled while consuming exactly one outstanding call; once a side has no
outstanding calls, no event but a new submission can change it. The
once-only transition therefore holds exactly when no calls of superseded
queries remain outstanding; a late stale resolution (see the
counterexample) changes a settled side again. -/
theorem c4_settle_once_without_stale_calls :
    (∀ s i r s', dispatchStep (.vectorDone i r) s = some s' →
        vectorSettled s'.session = true ∧
        kgSettled s'.session = kgSettled s.session ∧
        s'.session.query = s.session.query ∧
        s'.pendingVector.length = s.pendingVector.length - 1) ∧
      (∀ s i r s', dispatchStep (.kgDone i r) s = some s' →
        kgSettled s'.session = true ∧
        vectorSettled s'.session = vectorSettled s.session ∧
        s'.session.query = s.session.query ∧
        s'.pendingKG.length = s.pendingKG.length - 1) ∧
      (∀ s i r, s.pendingVector = [] → dispatchStep (.vectorDone i r) s = none) ∧
      (∀ s i r, s.pendingKG = [] → dispatchStep (.kgDone i r) s = none) := by
  refine ⟨?_, ?_, ?_, ?_⟩
  · intro s i r s' h
    simp only [dispatchStep] at h
    split at h
    · rename_i hi
      injection h with h
      subst h
      refine ⟨?_, ?_, ?_, ?_⟩
      · cases r <;> simp [applyVectorResult, vectorSettled]
      · cases r <;> simp [applyVectorResult, kgSettled]
      · cases r <;> rfl
      · simp [List.length_eraseIdx, hi]
    · cases h
  · intro s i r s' h
    simp only [dispatchStep] at h
    split at h
    · rename_i hi
      injection h with h
      subst h
      refine ⟨?_, ?_, ?_, ?_⟩
      · cases r <;> simp [applyKGResult, kgSettled]
      · cases r <;> simp [applyKGResult, vectorSettled]
      · cases r <;> rfl
      · simp [List.length_eraseIdx, hi]
    · cases h
  · intro s i r he
    simp [dispatchStep, he]
  · intro s i r he
    simp [dispatchStep, he]

/-- Witness for C4 amended: a vector resolution with no outstanding vector
call is disabled, and resolving the single outstanding vector call of a
fresh submission settles the side. -/
theorem c4_settle_once_without_stale_calls_witness :
    dispatchStep (.vectorDone 0 (.ok ⟨"q", "s", []⟩ 5)) dispatcherInit = none ∧
      (vectorSettled (applyVectorResult (.ok ⟨"q", "s", []⟩ 5)
          (handleQuery "q" initSession)) = true ∧
        kgSettled (applyVectorResult (.ok ⟨"q", "s", []⟩ 5)
            (handleQuery "q" initSession)) =
          kgSettled (handleQuery "q" initSession) ∧
        (applyVectorResult (.ok ⟨"q", "s", []⟩ 5)
            (handleQuery "q" initSession)).query =
          (handleQuery "q" initSession).query ∧
        (List.eraseIdx ["q"] 0).length = (["q"] : List String).length - 1) :=
  ⟨c4_settle_once_without_stale_calls.2.2.1 dispatcherInit 0 (.ok ⟨"q", "s", []⟩ 5) rfl,
    c4_settle_once_without_stale_calls.1
      { session := handleQuery "q" initSession
        pendingVector := ["q"]
        pendingKG := ["q"] }
      0 (.ok ⟨"q", "s", []⟩ 5)
      { session := applyVectorResult (.ok ⟨"q", "s", []⟩ 5) (handleQuery "q" initSession)
        pendingVector := List.eraseIdx ["q"] 0
        pendingKG := ["q"] }
      rfl⟩

/-- C8 counterexample: no 42 ms badge problem here, rather a stale badge:
submit q1, let its vector call succeed in 42 ms, then submit q2. The vector
side is Pending for the current query q2, yet the latency badge is still
rendered and shows the previous query's 42ms, since the recorded times are
not cleared on submission. -/
theorem c8_counterexample :
    (dispatchRun [.submit "q1", .vectorDone 0 (.ok ⟨"q1", "s1", []⟩ 42), .submit "q2"]
        dispatcherInit).map
      (fun s => (vectorOutcome s.session, latencyBadge s.session.vectorTime)) =
      some (.pending, some "42ms") := by
  decide

/-- C8 amended: the badge shows the recorded time with an ms suffix when
that time is present and nonzero, and is omitted when the time is absent
or zero (an available 0 ms measurement renders no badge); and because
submission retains the recorded times, a previous query's latency stays
displayed while the side is Pending for the new query. -/
theorem c8_latency_badge (m : Nat) (q : String) (s : SessionState) (hm : m ≠ 0) :
    latencyBadge (some m) = some (toString m ++ "ms") ∧
      latencyBadge none = none ∧
      latencyBadge (some 0) = none ∧
      formatTime (some 0) = "N/A" ∧
      (handleQuery q s).vectorTime = s.vectorTime ∧
      (handleQuery q s).kgTime = s.kgTime := by
  refine ⟨?_, rfl, rfl, rfl, rfl, rfl⟩
  simp [latencyBadge, formatTime, hm]

/-- Witness for C8 amended at 42 ms. -/
theorem c8_latency_badge_witness :
    latencyBadge (some 42) = some (toString 42 ++ "ms") ∧
      latencyBadge none = none ∧
      latencyBadge (some 0) = none ∧
      formatTime (some 0) = "N/A" ∧
      (handleQuery "q2" initSession).vectorTime = initSession.vectorTime ∧
      (handleQuery "q2" initSession).kgTime = initSession.kgTime :=
  c8_latency_badge 42 "q2" initSession (by decide)
